import Mathlib

set_option maxRecDepth 8000

/-!
Verification development for the weekly company-analysis pipeline
(`weekly_ai_report_enhanced.py`).  The Python source is shallowly embedded:
pure functions become Lean functions over `List Char` / `String`, Python
exceptions become `Except String`, and Python integers become `Int` / `Nat`
(with Python floor division and floor modulus mirrored by `Int.fdiv` and
`Int.fmod`).
-/

namespace WeeklyReport

/-! ### Python string primitives

Helpers mirroring the exact Python string operations the script uses.
Whitespace is the ASCII whitespace class of the regex token `\s`.
-/

/-- ASCII whitespace, the characters matched by the Python regex class `\s`
and stripped by `str.strip` for the ASCII inputs this program handles. -/
def isPySpace (c : Char) : Bool :=
  c = ' ' || c = '\t' || c = '\n' || c = '\r' || c = '\x0b' || c = '\x0c'

/-- `str.strip()` on a character list: drop whitespace from both ends. -/
def pyStripList (cs : List Char) : List Char :=
  ((cs.dropWhile isPySpace).reverse.dropWhile isPySpace).reverse

/-- `str.strip()` on a string. -/
def pyStrip (s : String) : String := String.mk (pyStripList s.data)

/-- Python `str.startswith` on strings, computed on the character lists. -/
def pyStartsWith (s pre : String) : Bool := pre.data.isPrefixOf s.data

/-- Python `str.endswith` on strings, computed on the character lists. -/
def pyEndsWith (s suf : String) : Bool := suf.data.isSuffixOf s.data

/-- `int(...)` applied to a nonempty decimal digit string (the regex group
`(\d+)` only ever captures digits). -/
def natOfDigits (cs : List Char) : Nat :=
  cs.foldl (fun acc c => acc * 10 + (c.toNat - 48)) 0

/-- Fuel-driven worker for literal substring splitting.  With fuel at least
the length of the input and a nonempty separator this computes exactly
Python `str.split(sep)` / `re.split` on a literal pattern. -/
def splitOnFuel (sep : List Char) : Nat → List Char → List (List Char)
  | _, [] => [[]]
  | 0, cs => [cs]
  | fuel + 1, c :: rest =>
      if sep.isPrefixOf (c :: rest) then
        [] :: splitOnFuel sep fuel (List.drop sep.length (c :: rest))
      else
        match splitOnFuel sep fuel rest with
        | seg :: segs => (c :: seg) :: segs
        | [] => [[c]]

/-- Python `str.split(sep)` for a nonempty literal separator. -/
def splitOnL (sep : List Char) (cs : List Char) : List (List Char) :=
  splitOnFuel sep cs.length cs

/-- Python `sep in s` membership test for a literal separator. -/
def containsL (sep : List Char) (cs : List Char) : Bool :=
  (splitOnL sep cs).length != 1

/-- Python `re.split` on a single-character class such as `[|\n]`: split at
every character satisfying `p`, keeping empty segments. -/
def splitAnyOf (p : Char → Bool) : List Char → List (List Char)
  | [] => [[]]
  | c :: rest =>
      if p c then [] :: splitAnyOf p rest
      else
        match splitAnyOf p rest with
        | seg :: segs => (c :: seg) :: segs
        | [] => [[c]]

/-! ### Rotation scheduler

`get_companies_for_week` and `calculate_current_week`, lines 570-594 of the
source.  Python list slicing (which clamps and resolves negative indices
against the length) is reproduced by `pySlice`.  Time values are integers
of seconds; `daysBetween` is `(today - start).days`, the floor of the
difference in whole days, exactly what `datetime` subtraction yields.
-/

/-- Resolve one Python slice bound against a list length. -/
def pySliceIdx (len : Nat) (i : Int) : Nat :=
  if i < 0 then (max (i + len) 0).toNat else min i.toNat len

/-- Python `l[a:b]` slicing on integer bounds. -/
def pySlice {α : Type} (l : List α) (a b : Int) : List α :=
  let s := pySliceIdx l.length a
  let e := pySliceIdx l.length b
  (l.drop s).take (e - s)

/-- `get_companies_for_week(companies, week_num, per_week)`:
`idx_start = (week_num - 1) * per_week`; raise `ValueError` when
`idx_start >= len(companies)`, otherwise return
`companies[idx_start : idx_start + per_week]`. -/
def get_companies_for_week (companies : List String) (week_num : Int)
    (per_week : Nat) : Except String (List String) :=
  let idx_start : Int := (week_num - 1) * per_week
  let idx_end : Int := idx_start + per_week
  if (companies.length : Int) ≤ idx_start then
    .error ("Week " ++ toString week_num ++ " exceeds available companies")
  else
    .ok (pySlice companies idx_start idx_end)

/-- `calculate_current_week(start_date, companies_per_week, total_companies)`
with the two datetimes given as integer seconds.  `days_diff` is the
timedelta day count, `weeks_passed = days_diff // 7`,
`total_weeks = (total_companies + companies_per_week - 1) // companies_per_week`,
and the result is `weeks_passed % total_weeks + 1`.  Python raises
`ZeroDivisionError` when a divisor is zero; that is the `.error` branch. -/
def calculate_current_week (startSec nowSec : Int)
    (companies_per_week total_companies : Nat) : Except String Int :=
  let days_diff : Int := (nowSec - startSec).fdiv 86400
  let weeks_passed : Int := days_diff.fdiv 7
  if companies_per_week = 0 then .error "ZeroDivisionError"
  else
    let total_weeks : Nat := (total_companies + companies_per_week - 1) / companies_per_week
    if total_weeks = 0 then .error "ZeroDivisionError"
    else .ok (weeks_passed.fmod total_weeks + 1)

/-! ### Regex model

The parser uses `re.search` with `re.DOTALL | re.IGNORECASE` on three
fixed cascading patterns plus one name pattern.  Each pattern is a plain
sequence of the constructs below, so it is transliterated into a list of
tokens and matched by a backtracking matcher with exactly the semantics of
the Python engine: `re.search` tries start positions left to right, greedy
pieces (`\s*`, `[:\s]+`, `(\d+)`) try the longest repetition first, lazy
pieces (`.*?`, `(.*?)`, `(.+?)`) try the shortest first, and `$` (no
`re.MULTILINE`) matches at the end of the input or just before one final
newline.
-/

/-- Lowercased code point, for `re.IGNORECASE` comparison of the ASCII
pattern literals. -/
def lowerNat (c : Char) : Nat :=
  if 65 ≤ c.toNat ∧ c.toNat ≤ 90 then c.toNat + 32 else c.toNat

/-- Case-insensitive character comparison. -/
def ciChar (a b : Char) : Bool := lowerNat a == lowerNat b

/-- Case-insensitive literal prefix test. -/
def ciStarts : List Char → List Char → Bool
  | [], _ => true
  | _ :: _, [] => false
  | p :: ps, c :: cs => ciChar p c && ciStarts ps cs

/-- Position where `$` matches without `re.MULTILINE`: end of input, or just
before a single trailing newline. -/
def dollarAt (cs : List Char) : Bool :=
  cs.isEmpty || cs == ['\n']

/-- One regex construct occurring in the patterns of the source. -/
inductive Tok where
  /-- case-insensitive literal text -/
  | lit : String → Tok
  /-- greedy non-capturing class star, `\s*` -/
  | star : (Char → Bool) → Tok
  /-- greedy non-capturing class plus, `[:\s]+` -/
  | plus : (Char → Bool) → Tok
  /-- greedy capturing class plus, `(\d+)` -/
  | plusGrp : (Char → Bool) → Tok
  /-- lazy non-capturing `.*?` (with `re.DOTALL` the class is every char) -/
  | lazyStar : Tok
  /-- lazy capturing `(.*?)` over the given char class -/
  | lazyStarGrp : (Char → Bool) → Tok
  /-- lazy capturing `(.+?)` over the given char class -/
  | lazyPlusGrp : (Char → Bool) → Tok
  /-- the group `(?:\n|$)` -/
  | nlOrEnd : Tok
  /-- lookahead `(?=A|B|$)` with case-insensitive literal alternatives -/
  | lookEnd : List String → Tok

/-- Return the first `some` among `f` applied to candidate repetition counts
or start offsets, in the priority order the Python engine uses. -/
def firstSome {β : Type} (is : List Nat) (f : Nat → Option β) : Option β :=
  is.findSome? f

/-- Backtracking matcher: match the token sequence against a prefix of the
input (a match need not reach the end of input), returning the captured
groups in order. -/
def matchToks : List Tok → List Char → Option (List (List Char))
  | [], _ => some []
  | .lit s :: ts, cs =>
      if ciStarts s.data cs then matchToks ts (cs.drop s.data.length) else none
  | .star p :: ts, cs =>
      let k := (cs.takeWhile p).length
      firstSome (List.range (k + 1)).reverse fun i => matchToks ts (cs.drop i)
  | .plus p :: ts, cs =>
      let k := (cs.takeWhile p).length
      firstSome (List.range k).reverse fun i => matchToks ts (cs.drop (i + 1))
  | .plusGrp p :: ts, cs =>
      let k := (cs.takeWhile p).length
      firstSome (List.range k).reverse fun i =>
        (matchToks ts (cs.drop (i + 1))).map (fun gs => cs.take (i + 1) :: gs)
  | .lazyStar :: ts, cs =>
      firstSome (List.range (cs.length + 1)) fun i => matchToks ts (cs.drop i)
  | .lazyStarGrp p :: ts, cs =>
      firstSome (List.range (cs.length + 1)) fun i =>
        if (cs.take i).all p then
          (matchToks ts (cs.drop i)).map (fun gs => cs.take i :: gs)
        else none
  | .lazyPlusGrp p :: ts, cs =>
      firstSome (List.range cs.length) fun i =>
        if (cs.take (i + 1)).all p then
          (matchToks ts (cs.drop (i + 1))).map (fun gs => cs.take (i + 1) :: gs)
        else none
  | .nlOrEnd :: ts, cs =>
      (match cs with
       | '\n' :: rest => matchToks ts rest
       | _ => none).orElse fun _ =>
        if dollarAt cs then matchToks ts cs else none
  | .lookEnd alts :: ts, cs =>
      if alts.any (fun a => ciStarts a.data cs) || dollarAt cs then
        matchToks ts cs
      else none

/-- `re.search`: try each start position from the left, return the captures
of the first position where the pattern matches. -/
def reSearch (toks : List Tok) (cs : List Char) : Option (List (List Char)) :=
  firstSome (List.range (cs.length + 1)) fun j => matchToks toks (cs.drop j)

/-! ### Structured extractor

`parse_perplexity_response` and its helpers, lines 47-158 of the source.
-/

/-- Character class `[:\s]`. -/
def colonOrSpace (c : Char) : Bool := c = ':' || isPySpace c

/-- Any character: the class of `.` under `re.DOTALL`. -/
def anyChar (_ : Char) : Bool := true

/-- Any character except newline: the class of `.` without `re.DOTALL`. -/
def notNewline (c : Char) : Bool := c != '\n'

/-- Pattern 1 of the situation cascade:
`SITUATION {n}:.*?\nScore:\s*(\d+)\s*\nKey Points:\s*\n(.*?)\nSources:\s*(.+?)(?=\n\nSITUATION|\n---COMPANY END---|$)`. -/
def pat1 (n : Nat) : List Tok :=
  [ .lit ("SITUATION " ++ toString n ++ ":"), .lazyStar,
    .lit "\nScore:", .star isPySpace, .plusGrp Char.isDigit, .star isPySpace,
    .lit "\nKey Points:", .star isPySpace, .lit "\n",
    .lazyStarGrp anyChar,
    .lit "\nSources:", .star isPySpace,
    .lazyPlusGrp anyChar,
    .lookEnd ["\n\nSITUATION", "\n---COMPANY END---"] ]

/-- Pattern 2 of the situation cascade:
`SITUATION {n}[:\s]+.*?\nScore[:\s]+(\d+)\s*\n.*?Key Points[:\s]+\n(.*?)\nSources[:\s]+(.+?)(?=\n\nSITUATION|\n---COMPANY END---|$)`. -/
def pat2 (n : Nat) : List Tok :=
  [ .lit ("SITUATION " ++ toString n), .plus colonOrSpace, .lazyStar,
    .lit "\nScore", .plus colonOrSpace, .plusGrp Char.isDigit,
    .star isPySpace, .lit "\n",
    .lazyStar, .lit "Key Points", .plus colonOrSpace, .lit "\n",
    .lazyStarGrp anyChar,
    .lit "\nSources", .plus colonOrSpace,
    .lazyPlusGrp anyChar,
    .lookEnd ["\n\nSITUATION", "\n---COMPANY END---"] ]

/-- Pattern 3 of the situation cascade, the lowercase variant of pattern 2
(equivalent to it under `re.IGNORECASE` but present in the source):
`situation {n}[:\s]+.*?\nscore[:\s]+(\d+)\s*\n.*?key points[:\s]+\n(.*?)\nsources[:\s]+(.+?)(?=\n\nsituation|\n---company end---|$)`. -/
def pat3 (n : Nat) : List Tok :=
  [ .lit ("situation " ++ toString n), .plus colonOrSpace, .lazyStar,
    .lit "\nscore", .plus colonOrSpace, .plusGrp Char.isDigit,
    .star isPySpace, .lit "\n",
    .lazyStar, .lit "key points", .plus colonOrSpace, .lit "\n",
    .lazyStarGrp anyChar,
    .lit "\nsources", .plus colonOrSpace,
    .lazyPlusGrp anyChar,
    .lookEnd ["\n\nsituation", "\n---company end---"] ]

/-- The company-name pattern `Company:\s*(.+?)(?:\n|$)` (no `re.DOTALL`,
so `.` excludes newlines). -/
def companyPat : List Tok :=
  [ .lit "Company:", .star isPySpace, .lazyPlusGrp notNewline, .nlOrEnd ]

/-- The cascade of the three situation patterns: each is tried with
`re.search` in order and the first that matches anywhere wins. -/
def situationMatch (n : Nat) (block : List Char) : Option (List (List Char)) :=
  match reSearch (pat1 n) block with
  | some gs => some gs
  | none =>
      match reSearch (pat2 n) block with
      | some gs => some gs
      | none => reSearch (pat3 n) block

/-- Bullet-marker test: `line.startswith('-') or line.startswith('•') or
line.startswith('*')`. -/
def isBulletLine (line : String) : Bool :=
  pyStartsWith line "-" || pyStartsWith line "•" || pyStartsWith line "*"

/-- `re.sub(r'^[-•*]\s*', '', line)`: remove one leading bullet character
and the whitespace after it. -/
def stripBulletMarker (line : String) : String :=
  match line.data with
  | c :: rest =>
      if c = '-' || c = '•' || c = '*' then
        String.mk (rest.dropWhile isPySpace)
      else line
  | [] => line

/-- The evidence-point loop over `points_text.split('\n')`: strip each line,
keep it only when it starts with a bullet marker and is nonempty after the
marker is removed. -/
def extractPoints (pointsText : String) : List String :=
  (splitOnL ['\n'] pointsText.data).filterMap fun rawLine =>
    let line := pyStrip (String.mk rawLine)
    if isBulletLine line then
      let point := stripBulletMarker line
      if point ≠ "" then some point else none
    else none

/-- The source extraction
`[s.strip() for s in re.split(r'[|\n]', sources_text) if s.strip() and s.strip().startswith('http')]`. -/
def extractSources (sourcesText : String) : List String :=
  (splitAnyOf (fun c => c = '|' || c = '\n') sourcesText.data).filterMap
    fun seg =>
      let s := pyStrip (String.mk seg)
      if s ≠ "" && pyStartsWith s "http" then some s else none

/-- One category result of `CompanyAnalysis.situations`. -/
structure CategoryResult where
  name : String
  score : Nat
  points : List String
  sources : List String
  deriving Repr, DecidableEq

/-- The fixed situation labels of the `CompanyAnalysis` constructor. -/
def situationName : Nat → String
  | 1 => "Resource Constraints"
  | 2 => "Supply Chain Disruption"
  | 3 => "Margin Pressure"
  | 4 => "Significant Growth"
  | _ => ""

/-- The default (unparsed) entry of the situations dictionary: score `0`,
no points, no sources. -/
def defaultResult (n : Nat) : CategoryResult :=
  { name := situationName n, score := 0, points := [], sources := [] }

/-- The analysis record for one company. -/
structure CompanyAnalysis where
  name : String
  situations : List CategoryResult
  deriving Repr, DecidableEq

/-- The body of the situation loop for one `sit_num`: when the cascade
matches, parse the score integer, strip the two text groups, and build the
entry with `points[:3]` and `sources[:2]`; when it does not, the entry is
left at its default (returned as `none` here). -/
def parseSituation (n : Nat) (block : String) : Option CategoryResult :=
  match situationMatch n block.data with
  | some (g1 :: g2 :: g3 :: _) =>
      let pointsText := pyStrip (String.mk g2)
      let sourcesText := pyStrip (String.mk g3)
      some { name := situationName n,
             score := natOfDigits g1,
             points := (extractPoints pointsText).take 3,
             sources := (extractSources sourcesText).take 2 }
  | _ => none

/-- `block.split('---COMPANY END---')[0]` applied only when the end marker
is present. -/
def truncateBlock (rawBlock : String) : String :=
  if containsL ("---COMPANY END---".data) rawBlock.data then
    String.mk ((splitOnL ("---COMPANY END---".data) rawBlock.data).headD [])
  else rawBlock

/-- `situations_found`: how many of the four situation patterns matched in
the block. -/
def situationsFound (rawBlock : String) : Nat :=
  (([1, 2, 3, 4] : List Nat).filter
    (fun n => (parseSituation n (truncateBlock rawBlock)).isSome)).length

/-- The four situation entries of the block, defaults standing in for the
unmatched ones. -/
def blockResults (rawBlock : String) : List CategoryResult :=
  ([1, 2, 3, 4] : List Nat).map
    (fun n => (parseSituation n (truncateBlock rawBlock)).getD (defaultResult n))

/-- The per-block body of the parsing loop: truncate at the end marker,
search for the company name (skipping the block when absent), parse the
four situations, and append the record only when `situations_found > 0`. -/
def parseBlock (rawBlock : String) : Option CompanyAnalysis :=
  match reSearch companyPat (truncateBlock rawBlock).data with
  | some (g1 :: _) =>
      if 0 < situationsFound rawBlock then
        some { name := pyStrip (String.mk g1),
               situations := blockResults rawBlock }
      else none
  | _ => none

/-- `parse_flexible`: the fallback prints diagnostics and returns no
companies. -/
def parse_flexible (_ : String) : List CompanyAnalysis := []

/-- `parse_perplexity_response`: fall back to `parse_flexible` when the
start marker is absent, otherwise split on the start marker and process
every block after the first split piece. -/
def parse_perplexity_response (response_text : String) : List CompanyAnalysis :=
  if !containsL ("---COMPANY START---".data) response_text.data then
    parse_flexible response_text
  else
    ((splitOnL ("---COMPANY START---".data) response_text.data).tail).filterMap
      (fun blk => parseBlock (String.mk blk))

/-! ### Research phase of `main`

Lines 654-684 of the source: select the batch, compose one prompt that
lists every company of the week, and call `get_perplexity_response` once
for the whole batch.  The remote call is abstracted as `adapter`; the
second component of the result is the list of prompts actually sent to the
adapter, used to reason about how many calls the batch causes.  An
exception from the adapter is wrapped like line 529
(`API request failed: ...`) and aborts the run, as the enclosing
`try`/`except` of `main` does.

`composePrompt` is the prompt f-string of lines 655-668: role block,
scoring definitions, and the bulleted list of every company of the
batch. -/
def composePrompt (role_objective scoring_defs : String) (week_num : Int)
    (batch : List String) : String :=
  let companies_text := String.intercalate "\n"
    (batch.map (fun name => "- " ++ name))
  role_objective ++ "\n\n" ++
    "Definitions of Situations and Scoring:\n" ++ scoring_defs ++ "\n\n" ++
    "Companies to Analyze (Week " ++ toString week_num ++ "):\n" ++
    companies_text ++ "\n"

/-- The batch-processing part of `main`: pick the batch of the week, send
the one combined prompt, parse the answer.  The second component records
every prompt the adapter received during the run. -/
def runResearch (adapter : String → Except String String)
    (role_objective scoring_defs : String) (all_companies : List String)
    (week_num : Int) (per_week : Nat) :
    Except String (List CompanyAnalysis) × List String :=
  match get_companies_for_week all_companies week_num per_week with
  | .error e => (.error e, [])
  | .ok batch =>
      match adapter (composePrompt role_objective scoring_defs week_num batch) with
      | .error e =>
          (.error ("API request failed: " ++ e),
           [composePrompt role_objective scoring_defs week_num batch])
      | .ok raw =>
          (.ok (parse_perplexity_response raw),
           [composePrompt role_objective scoring_defs week_num batch])

/-! ### Concrete inputs

Small raw-text inputs used to settle the claims on explicit runs of the
embedded parser, together with the records the parser produces on them.
-/

/-- A well-formed block whose score line reads `7`. -/
def c6Input : String :=
  "---COMPANY START---\nCompany: Acme\nSITUATION 1: Resource Constraints\nScore: 7\nKey Points:\n- Strong growth noted\nSources: https://a.com\n---COMPANY END---"

/-- A well-formed block whose score line carries the digit `n`. -/
def scoreTemplate (n : Nat) : String :=
  "---COMPANY START---\nCompany: B\nSITUATION 1: S\nScore: " ++ toString n ++
    "\nKey Points:\n- abcd\nSources: https://u.v\n---COMPANY END---"

/-- A well-formed block whose sources line holds three URLs. -/
def c7Input : String :=
  "---COMPANY START---\nCompany: Gamma\nSITUATION 1: Margin\nScore: 3\nKey Points:\n- First point here\nSources: https://a.com | https://b.com | https://c.com\n---COMPANY END---"

/-- A block with a recoverable company name but no parseable situation. -/
def c4Input : String :=
  "---COMPANY START---\nCompany: TestCo\nNothing else here\n---COMPANY END---"

/-- A well-formed block with one informative bullet and two degenerate
bullet lines (marker with only whitespace after it, bare marker). -/
def c8Input : String :=
  "---COMPANY START---\nCompany: Delta\nSITUATION 1: Growth\nScore: 4\nKey Points:\n- Real evidence line\n- \n-\nSources: https://x.com\n---COMPANY END---"

/-- The record the parser emits for `c8Input`. -/
def c8Record : CompanyAnalysis :=
  { name := "Delta",
    situations :=
      [ { name := situationName 1, score := 4,
          points := ["Real evidence line"], sources := ["https://x.com"] },
        defaultResult 2, defaultResult 3, defaultResult 4 ] }

/-- A well-formed block whose single source URL ends in a sentence
period. -/
def c9Input : String :=
  "---COMPANY START---\nCompany: Epsilon\nSITUATION 1: Supply\nScore: 2\nKey Points:\n- Some evidence text\nSources: https://news.example.com/story.\n---COMPANY END---"

/-- The record the parser emits for `c9Input`. -/
def c9Record : CompanyAnalysis :=
  { name := "Epsilon",
    situations :=
      [ { name := situationName 1, score := 2,
          points := ["Some evidence text"],
          sources := ["https://news.example.com/story."] },
        defaultResult 2, defaultResult 3, defaultResult 4 ] }

/-- A well-formed block for situation 2, used as a generic witness input. -/
def capsInput : String :=
  "---COMPANY START---\nCompany: Delta Co\nSITUATION 2: Supply outlook\nScore: 4\nKey Points:\n- Supply evidence item\nSources: https://caps.example.com\n---COMPANY END---"

/-- The one populated category of the record for `capsInput`. -/
def capsCat : CategoryResult :=
  { name := situationName 2, score := 4,
    points := ["Supply evidence item"], sources := ["https://caps.example.com"] }

/-- The record the parser emits for `capsInput`. -/
def capsRecord : CompanyAnalysis :=
  { name := "Delta Co",
    situations := [defaultResult 1, capsCat, defaultResult 3, defaultResult 4] }

/-- Modelled from the spec: the property claim C9 asserts of every emitted
source string, namely that it is a syntactically valid absolute HTTP or
HTTPS URL (an absolute scheme prefix) with trailing sentence punctuation
stripped (so it does not end in sentence punctuation).  The extractor
itself has no such check; this definition exists to state the claim. -/
def specValidURL (s : String) : Bool :=
  (pyStartsWith s "http://" || pyStartsWith s "https://") &&
    !(pyEndsWith s "." || pyEndsWith s "," || pyEndsWith s ";" ||
      pyEndsWith s "!" || pyEndsWith s "?")

/-! ### Helper lemmas -/

/-- Floor division lower bound: `b * (a // b) ≤ a` for positive `b`. -/
lemma fdiv_mul_le (a : Int) {b : Int} (hb : 0 < b) : b * a.fdiv b ≤ a := by
  have h := Int.fmod_add_fdiv a b
  have h2 := Int.fmod_nonneg' a hb
  linarith

/-- Composing the two Python floor divisions of `calculate_current_week`,
first by seconds per day and then by days per week, is floor division by
seconds per week. -/
lemma fdiv_day_week (x : Int) : (x.fdiv 86400).fdiv 7 = x.fdiv 604800 := by
  have h1 := fdiv_mul_le x (show (0 : Int) < 86400 by norm_num)
  have h2 := Int.lt_fdiv_add_one_mul_self x (show (0 : Int) < 86400 by norm_num)
  have h3 := fdiv_mul_le (x.fdiv 86400) (show (0 : Int) < 7 by norm_num)
  have h4 := Int.lt_fdiv_add_one_mul_self (x.fdiv 86400) (show (0 : Int) < 7 by norm_num)
  have h5 := fdiv_mul_le x (show (0 : Int) < 604800 by norm_num)
  have h6 := Int.lt_fdiv_add_one_mul_self x (show (0 : Int) < 604800 by norm_num)
  omega

/-! ### Claim theorems: rotation scheduler -/

/-- Claim C5 (confirmed): with a nonempty entity list and a positive batch
size, the time-derived path returns
`(weeksElapsed mod totalBatches) + 1` where
`weeksElapsed = floor((referenceTime - anchorDate) / 7 days)` and
`totalBatches = ceil(total / batchSize)`; being a pure function of its
inputs, two invocations in the same calendar week give the same index. -/
theorem calculate_current_week_spec (startSec nowSec : Int) (per total : Nat)
    (hper : 1 ≤ per) (htot : 1 ≤ total) :
    calculate_current_week startSec nowSec per total =
      .ok (((nowSec - startSec).fdiv 604800).fmod
        (((total + per - 1) / per : Nat) : Int) + 1) := by
  have hpz : ¬(per = 0) := by omega
  have htw : ¬((total + per - 1) / per = 0) := by
    intro h0
    have h1 : per ≤ total + per - 1 := by omega
    have h2 := Nat.div_le_div_right (c := per) h1
    rw [h0, Nat.div_self (by omega)] at h2
    omega
  simp only [calculate_current_week]
  rw [if_neg hpz, if_neg htw, fdiv_day_week]

/-- Witness for C5 at day 10 after the anchor, batch size 5, 23 entities. -/
theorem calculate_current_week_spec_witness :
    calculate_current_week 0 864000 5 23 = .ok 2 := by
  have h := calculate_current_week_spec 0 864000 5 23 (by norm_num) (by norm_num)
  rw [h]
  rfl

/-- Counterexample to claim C2: with 5 entities and batch size 5 there is
exactly 1 batch, yet requesting batch `totalBatches + 1 = 2` raises instead
of wrapping to batch 1, so the explicit index is not normalized
cyclically. -/
theorem explicit_index_not_cyclic_counterexample :
    get_companies_for_week ["A", "B", "C", "D", "E"] 2 5 =
      .error "Week 2 exceeds available companies" ∧
    get_companies_for_week ["A", "B", "C", "D", "E"] 1 5 =
      .ok ["A", "B", "C", "D", "E"] := ⟨rfl, rfl⟩

/-- Claim C2 (amended): the scheduler applies no modular normalization to
an explicitly supplied index `w ≥ 1`: when `(w-1)*batchSize` is within the
list it slices `entities[(w-1)*size : w*size]`, and when it reaches past
the list it raises an error rather than wrapping. -/
theorem get_companies_for_week_no_normalization (l : List String) (p : Nat)
    (w : Int) (hw : 1 ≤ w) :
    ((l.length : Int) ≤ (w - 1) * p →
      get_companies_for_week l w p =
        .error ("Week " ++ toString w ++ " exceeds available companies")) ∧
    ((w - 1) * p < (l.length : Int) →
      get_companies_for_week l w p =
        .ok ((l.drop ((w - 1) * p).toNat).take p)) := by
  constructor
  · intro h
    simp only [get_companies_for_week]
    rw [if_pos h]
  · intro h
    have ha : 0 ≤ (w - 1) * (p : Int) :=
      mul_nonneg (by omega) (Int.natCast_nonneg p)
    simp only [get_companies_for_week]
    rw [if_neg (by omega)]
    simp only [pySlice, pySliceIdx]
    have hsl : ((w - 1) * (p : Int)).toNat ≤ l.length := by omega
    rw [if_neg (by omega), if_neg (by omega), min_eq_left hsl]
    have hkey : min ((w - 1) * (p : Int) + p).toNat l.length -
        ((w - 1) * (p : Int)).toNat =
        min (((w - 1) * (p : Int)).toNat + p) l.length -
          ((w - 1) * (p : Int)).toNat := by omega
    rw [hkey]
    rcases le_or_lt (((w - 1) * (p : Int)).toNat + p) l.length with hle | hlt
    · rw [min_eq_left hle]
      congr 2
      omega
    · rw [min_eq_right (by omega)]
      rw [List.take_of_length_le (by simp only [List.length_drop]; omega),
        List.take_of_length_le (by simp only [List.length_drop]; omega)]

/-- Witness for the amended C2 on a 2-entity list, batch size 1, week 1. -/
theorem get_companies_for_week_no_normalization_witness :
    get_companies_for_week ["X", "Y"] 1 1 = .ok ["X"] :=
  ((get_companies_for_week_no_normalization ["X", "Y"] 1 1 (by norm_num)).2
    (by norm_num)).trans rfl

/-- Counterexample to claim C3: on the empty entity list the explicit path
raises `ValueError` and the time-derived path raises `ZeroDivisionError`,
instead of returning index 1 with an empty batch. -/
theorem empty_list_counterexample :
    get_companies_for_week [] 1 5 = .error "Week 1 exceeds available companies" ∧
    calculate_current_week 0 0 5 0 = .error "ZeroDivisionError" := ⟨rfl, rfl⟩

/-- Claim C3 (amended): on an empty entity list both scheduler paths
raise: the explicit path rejects every index `w ≥ 1` because the start
offset is never below the zero length, and the time-derived path divides
modulo a zero `total_weeks` (there is no minimum-1 guard in the code). -/
theorem empty_entities_raise (w : Int) (hw : 1 ≤ w) (p : Nat) (hp : 1 ≤ p)
    (s t : Int) :
    get_companies_for_week [] w p =
      .error ("Week " ++ toString w ++ " exceeds available companies") ∧
    calculate_current_week s t p 0 = .error "ZeroDivisionError" := by
  constructor
  · simp only [get_companies_for_week]
    rw [if_pos]
    simp only [List.length_nil, Int.natCast_zero]
    exact mul_nonneg (by omega) (Int.natCast_nonneg p)
  · simp only [calculate_current_week]
    rw [if_neg (by omega), if_pos (Nat.div_eq_of_lt (by omega))]

/-- Witness for the amended C3 at week 3, batch size 2. -/
theorem empty_entities_raise_witness :
    get_companies_for_week [] 3 2 =
      .error ("Week " ++ toString (3 : Int) ++ " exceeds available companies") ∧
    calculate_current_week 5 99 2 0 = .error "ZeroDivisionError" :=
  empty_entities_raise 3 (by norm_num) 2 (by norm_num) 5 99

/-! ### Claim theorems: batch processing in `main` -/

/-- Counterexample to claim C1: for a batch of 3 entities the adapter is
invoked once with one combined prompt, not once per entity, and when the
adapter fails the whole run fails instead of recording a partial outcome
with 2 successes. -/
theorem runner_not_per_entity_counterexample :
    (runResearch (fun _ => .ok "no markers") "R" "D" ["E1", "E2", "E3"] 1 3).2.length = 1 ∧
    (runResearch (fun _ => .error "boom") "R" "D" ["E1", "E2", "E3"] 1 3).1 =
      .error "API request failed: boom" := ⟨rfl, rfl⟩

/-- Claim C1 (amended): `main` sends the research adapter exactly one
combined prompt listing every entity of the batch; when that single call
fails the whole run fails with the wrapped error, so there is no
per-entity failure record and no partial-failure isolation. -/
theorem runResearch_one_call_per_batch
    (adapter : String → Except String String) (role defs : String)
    (all : List String) (w : Int) (p : Nat) (batch : List String)
    (h : get_companies_for_week all w p = .ok batch) :
    (runResearch adapter role defs all w p).2 = [composePrompt role defs w batch] ∧
    (∀ e, adapter (composePrompt role defs w batch) = .error e →
      (runResearch adapter role defs all w p).1 =
        .error ("API request failed: " ++ e)) := by
  simp only [runResearch, h]
  constructor
  · cases hA : adapter (composePrompt role defs w batch) <;> simp
  · intro e he
    rw [he]

/-- Witness for the amended C1: a 1-entity batch with a failing adapter
still causes exactly one adapter call. -/
theorem runResearch_one_call_per_batch_witness :
    (runResearch (fun _ => Except.error "x") "R" "D" ["A"] 1 1).2 =
      [composePrompt "R" "D" 1 ["A"]] :=
  (runResearch_one_call_per_batch (fun _ => Except.error "x") "R" "D" ["A"]
    1 1 ["A"] rfl).1

/-! ### Helper lemmas: structured extractor -/

/-- Every string `extractPoints` keeps comes from a line of the points text
that, once stripped, begins with a bullet marker; the kept string is that
line with the marker removed and is nonempty. -/
lemma mem_extractPoints {s p : String} (hp : p ∈ extractPoints s) :
    ∃ rawLine ∈ splitOnL ['\n'] s.data,
      isBulletLine (pyStrip (String.mk rawLine)) = true ∧
      p = stripBulletMarker (pyStrip (String.mk rawLine)) ∧ p ≠ "" := by
  unfold extractPoints at hp
  rw [List.mem_filterMap] at hp
  obtain ⟨raw, hraw, hf⟩ := hp
  dsimp only at hf
  split at hf
  · split at hf
    · obtain rfl := Option.some.inj hf
      exact ⟨raw, hraw, by assumption, rfl, by assumption⟩
    · exact absurd hf (by simp)
  · exact absurd hf (by simp)

/-- Every string `extractSources` keeps starts with `http` and is
nonempty. -/
lemma mem_extractSources {s u : String} (hu : u ∈ extractSources s) :
    pyStartsWith u "http" = true ∧ u ≠ "" := by
  unfold extractSources at hu
  rw [List.mem_filterMap] at hu
  obtain ⟨seg, _, hf⟩ := hu
  dsimp only at hf
  split at hf
  · obtain rfl := Option.some.inj hf
    rename_i hcond
    rw [Bool.and_eq_true] at hcond
    refine ⟨hcond.2, ?_⟩
    intro h0
    rw [h0] at hcond
    simp at hcond
  · exact absurd hf (by simp)

/-- A situation entry produced by a successful pattern match takes at most
the first 3 extracted evidence points and the first 2 extracted URLs. -/
lemma parseSituation_some {n : Nat} {block : String} {r : CategoryResult}
    (h : parseSituation n block = some r) :
    ∃ pt st : String, r.points = (extractPoints pt).take 3 ∧
      r.sources = (extractSources st).take 2 := by
  unfold parseSituation at h
  split at h
  · obtain rfl := Option.some.inj h
    exact ⟨_, _, rfl, rfl⟩
  · exact absurd h (by simp)

/-- Every entry of `blockResults` is a `take 3` of extracted points paired
with a `take 2` of extracted sources (the default entry realizes this with
the empty text). -/
lemma mem_blockResults {raw : String} {r : CategoryResult}
    (hr : r ∈ blockResults raw) :
    ∃ pt st : String, r.points = (extractPoints pt).take 3 ∧
      r.sources = (extractSources st).take 2 := by
  unfold blockResults at hr
  rw [List.mem_map] at hr
  obtain ⟨n, _, hn⟩ := hr
  cases hps : parseSituation n (truncateBlock raw) with
  | none =>
      rw [hps] at hn
      simp only [Option.getD_none] at hn
      exact ⟨"", "", by rw [← hn]; rfl, by rw [← hn]; rfl⟩
  | some r0 =>
      rw [hps] at hn
      simp only [Option.getD_some] at hn
      exact hn ▸ parseSituation_some hps

/-- The situations of an emitted record are exactly the four entries of
`blockResults`. -/
lemma parseBlock_some_situations {raw : String} {c : CompanyAnalysis}
    (h : parseBlock raw = some c) : c.situations = blockResults raw := by
  unfold parseBlock at h
  split at h
  · split at h
    · obtain rfl := Option.some.inj h
      rfl
    · exact absurd h (by simp)
  · exact absurd h (by simp)

/-- Every situation entry of every record the parser emits is a `take 3`
of extracted points paired with a `take 2` of extracted sources. -/
lemma mem_parse_situations {text : String} {c : CompanyAnalysis}
    (hc : c ∈ parse_perplexity_response text) {r : CategoryResult}
    (hr : r ∈ c.situations) :
    ∃ pt st : String, r.points = (extractPoints pt).take 3 ∧
      r.sources = (extractSources st).take 2 := by
  unfold parse_perplexity_response at hc
  split at hc
  · exact absurd hc (by simp [parse_flexible])
  · rw [List.mem_filterMap] at hc
    obtain ⟨blk, _, hblk⟩ := hc
    rw [parseBlock_some_situations hblk] at hr
    exact mem_blockResults hr

/-! ### Claim theorems: structured extractor -/

/-- Counterexample to claim C4: `c4Input` contains a start marker and a
recoverable company name (the name search succeeds on the truncated
block), yet because no category block parses the record is discarded and
the extractor returns no records at all. -/
theorem name_without_categories_counterexample :
    parse_perplexity_response c4Input = [] ∧
    reSearch companyPat ("\nCompany: TestCo\nNothing else here\n").data =
      some ["TestCo".data] := ⟨rfl, rfl⟩

/-- Claim C4 (amended): a segment whose entity name is found but none of
whose four category blocks parses is dropped, not emitted with
all-default categories; the guard requires at least one parsed
category. -/
theorem name_only_block_not_emitted (raw : String) (g1 : List Char)
    (gs : List (List Char))
    (hname : reSearch companyPat (truncateBlock raw).data = some (g1 :: gs))
    (hnone : ∀ n ∈ ([1, 2, 3, 4] : List Nat),
      parseSituation n (truncateBlock raw) = none) :
    parseBlock raw = none := by
  have h1 := hnone 1 (by simp)
  have h2 := hnone 2 (by simp)
  have h3 := hnone 3 (by simp)
  have h4 := hnone 4 (by simp)
  have hsf : situationsFound raw = 0 := by
    simp [situationsFound, h1, h2, h3, h4]
  unfold parseBlock
  rw [hname, hsf]
  simp

/-- Witness for the amended C4 on a block with a name line and free text
only. -/
theorem name_only_block_not_emitted_witness :
    parseBlock "\nCompany: WitCo\nFree text without scores\n" = none :=
  name_only_block_not_emitted "\nCompany: WitCo\nFree text without scores\n"
    ("WitCo".data) [] rfl (by decide)

/-- Counterexample to claim C6: a score line reading `7` yields a record
whose first category score is `7`, which is neither the unset sentinel `0`
nor within 1-5; the extractor does not clamp scores. -/
theorem score_range_counterexample :
    (parse_perplexity_response c6Input).map
      (fun c => c.situations.map CategoryResult.score) = [[7, 0, 0, 0]] ∧
    ¬((7 : Nat) = 0 ∨ (1 ≤ (7 : Nat) ∧ (7 : Nat) ≤ 5)) := ⟨rfl, by decide⟩

/-- Claim C6 (amended): a category score is either 0 (unset) or the
integer parsed from the digits of the matched score line, passed through
with no clamping to 1-5: every single-digit score value is emitted
exactly as written. -/
theorem score_passthrough (n : Nat) (h : n < 10) :
    (parse_perplexity_response (scoreTemplate n)).map
      (fun c => c.situations.map CategoryResult.score) = [[n, 0, 0, 0]] := by
  interval_cases n <;> rfl

/-- Witness for the amended C6 at score 7. -/
theorem score_passthrough_witness :
    (parse_perplexity_response (scoreTemplate 7)).map
      (fun c => c.situations.map CategoryResult.score) = [[7, 0, 0, 0]] :=
  score_passthrough 7 (by norm_num)

/-- Counterexample to claim C7: the sources block of `c7Input` holds three
URLs and all three are extracted in order, but the emitted record keeps
only the first two, not the first three. -/
theorem sources_cap_counterexample :
    extractSources "https://a.com | https://b.com | https://c.com" =
      ["https://a.com", "https://b.com", "https://c.com"] ∧
    (parse_perplexity_response c7Input).map
      (fun c => c.situations.map CategoryResult.sources) =
      [[["https://a.com", "https://b.com"], [], [], []]] := ⟨rfl, rfl⟩

/-- Claim C7 (amended): every emitted category keeps at most the first 3
surviving evidence lines and at most the first 2 extracted source URLs, in
original order (each field is a prefix-take of the extraction result). -/
theorem parse_caps (text : String) (c : CompanyAnalysis)
    (hc : c ∈ parse_perplexity_response text) (r : CategoryResult)
    (hr : r ∈ c.situations) :
    r.points.length ≤ 3 ∧ r.sources.length ≤ 2 ∧
    ∃ pt st : String, r.points = (extractPoints pt).take 3 ∧
      r.sources = (extractSources st).take 2 := by
  obtain ⟨pt, st, hpts, hsrc⟩ := mem_parse_situations hc hr
  refine ⟨?_, ?_, pt, st, hpts, hsrc⟩
  · rw [hpts]
    simp only [List.length_take]
    omega
  · rw [hsrc]
    simp only [List.length_take]
    omega

/-- Witness for the amended C7 on the record of `capsInput`. -/
theorem parse_caps_witness :
    capsCat.points.length ≤ 3 ∧ capsCat.sources.length ≤ 2 ∧
    ∃ pt st : String, capsCat.points = (extractPoints pt).take 3 ∧
      capsCat.sources = (extractSources st).take 2 :=
  parse_caps capsInput capsRecord
    (by
      have h : parse_perplexity_response capsInput = [capsRecord] := rfl
      rw [h]
      exact List.mem_singleton.mpr rfl)
    capsCat
    (List.Mem.tail _ (List.Mem.head _))

/-- Claim C8 (confirmed): the minimum informativeness threshold of this
implementation is zero characters: a bullet line whose content is empty
after the marker is stripped is excluded even though a valid marker
precedes it, and every kept evidence point is strictly longer than that
threshold. -/
theorem evidence_point_min_length (text : String) (c : CompanyAnalysis)
    (hc : c ∈ parse_perplexity_response text) (r : CategoryResult)
    (hr : r ∈ c.situations) (p : String) (hp : p ∈ r.points) :
    0 < p.length := by
  obtain ⟨pt, st, hpts, _⟩ := mem_parse_situations hc hr
  rw [hpts] at hp
  obtain ⟨_, _, _, _, hne⟩ := mem_extractPoints (List.mem_of_mem_take hp)
  have hd : p.data ≠ [] := by
    intro h0
    exact hne (by cases p; simp_all)
  exact List.length_pos.mpr hd

/-- Witness for C8: the informative bullet of `c8Input` is kept (while its
two degenerate bullet lines are not part of the record). -/
theorem evidence_point_min_length_witness :
    0 < ("Real evidence line" : String).length :=
  evidence_point_min_length c8Input c8Record
    (by
      have h : parse_perplexity_response c8Input = [c8Record] := rfl
      rw [h]
      exact List.mem_singleton.mpr rfl)
    (c8Record.situations.headD (defaultResult 1))
    (List.Mem.head _)
    "Real evidence line"
    (List.Mem.head _)

/-- Counterexample to claim C9: the emitted source string of `c9Input`
keeps its trailing sentence period, so it is not a URL with trailing
punctuation stripped. -/
theorem source_url_counterexample :
    (parse_perplexity_response c9Input).map
      (fun c => c.situations.map CategoryResult.sources) =
      [[["https://news.example.com/story."], [], [], []]] ∧
    specValidURL "https://news.example.com/story." = false := ⟨rfl, rfl⟩

/-- Claim C9 (amended): every emitted source string is a nonempty
whitespace-stripped segment that starts with the literal prefix `http`;
no URL syntax validation and no trailing-punctuation stripping is
performed. -/
theorem sources_start_with_http (text : String) (c : CompanyAnalysis)
    (hc : c ∈ parse_perplexity_response text) (r : CategoryResult)
    (hr : r ∈ c.situations) (u : String) (hu : u ∈ r.sources) :
    pyStartsWith u "http" = true ∧ u ≠ "" := by
  obtain ⟨pt, st, _, hsrc⟩ := mem_parse_situations hc hr
  rw [hsrc] at hu
  exact mem_extractSources (List.mem_of_mem_take hu)

/-- Witness for the amended C9 on the record of `c9Input`. -/
theorem sources_start_with_http_witness :
    pyStartsWith "https://news.example.com/story." "http" = true ∧
    ("https://news.example.com/story." : String) ≠ "" :=
  sources_start_with_http c9Input c9Record
    (by
      have h : parse_perplexity_response c9Input = [c9Record] := rfl
      rw [h]
      exact List.mem_singleton.mpr rfl)
    (c9Record.situations.headD (defaultResult 1))
    (List.Mem.head _)
    "https://news.example.com/story."
    (List.Mem.head _)

/-- Claim C10 (confirmed): every evidence point the extractor keeps comes
from a line of the points text that, after stripping, begins with one of
the bullet markers, and the point is that line with the marker removed; a
line without a bullet marker never contributes an evidence point. -/
theorem extractPoints_only_bulleted (s p : String) (hp : p ∈ extractPoints s) :
    ∃ rawLine ∈ splitOnL ['\n'] s.data,
      isBulletLine (pyStrip (String.mk rawLine)) = true ∧
      p = stripBulletMarker (pyStrip (String.mk rawLine)) := by
  obtain ⟨raw, h1, h2, h3, _⟩ := mem_extractPoints hp
  exact ⟨raw, h1, h2, h3⟩

/-- Witness for C10: the single point kept from a two-line points text
with one bulleted and one plain line. -/
theorem extractPoints_only_bulleted_witness :
    ∃ rawLine ∈ splitOnL ['\n'] ("- alpha beta\nplain line" : String).data,
      isBulletLine (pyStrip (String.mk rawLine)) = true ∧
      ("alpha beta" : String) =
        stripBulletMarker (pyStrip (String.mk rawLine)) :=
  extractPoints_only_bulleted "- alpha beta\nplain line" "alpha beta"
    (by
      have h : extractPoints "- alpha beta\nplain line" = ["alpha beta"] := rfl
      rw [h]
      exact List.mem_singleton.mpr rfl)

end WeeklyReport
